import Mathlib

/-!
Verification of the task-instance lifecycle engine
(`airflow-core/src/airflow/models/taskinstance.py`).

Conventions of the embedding:
* timestamps are integer microseconds since the epoch (`Nat`);
* durations are integer microseconds (`Int` where a difference is stored);
* Python `None` becomes `Option.none`; Python truthiness of an optional
  string is modelled explicitly;
* the SHA1 hash used for retry jitter is kept abstract as a function
  argument `H : String → Nat` (the source interprets the hex digest of a
  fixed key string as an integer);
* database reads that feed the functions (dependency-check outcomes, the
  task-reschedule start date, mapped-task-instance counts, the sibling
  rows of a dag run) are passed in as explicit arguments.
-/

namespace Airflow

/-- Task-instance lifecycle states, from the state machine of the engine.
The separate "none" (no status) state is represented as `Option.none` at
use sites. -/
inductive TIState where
  | scheduled
  | queued
  | running
  | success
  | failed
  | skipped
  | up_for_retry
  | up_for_reschedule
  | deferred
  | restarting
  | removed
  deriving DecidableEq, Repr

/-- Modelled from the spec: the set of states that are terminal for the
current try (`State.finished` lives in `airflow/utils/state.py`, outside
the sources at hand; §4.1 lists `removed`/`success`/`failed`/`skipped` as
terminal). -/
def State.finished : List TIState :=
  [TIState.success, TIState.failed, TIState.skipped, TIState.removed]

/-- Whether an optional state (Python: possibly `None`) is a finished
state: `ti.state in State.finished`. -/
def optStateFinished : Option TIState → Bool
  | some st => State.finished.contains st
  | none => false

/-- Python truthiness of an optional string (`if ti.next_method:`):
`None` and the empty string are falsy. -/
def optStrTruthy : Option String → Bool
  | none => false
  | some s => s != ""

/-- The task-instance row fields used by the lifecycle functions under
verification. Timestamps are microseconds. -/
structure TaskInstance where
  dag_id : String := "dag"
  task_id : String := "task"
  run_id : String := "run"
  map_index : Int := -1
  logical_date : String := ""
  state : Option TIState := none
  try_number : Nat := 0
  max_tries : Nat := 0
  start_date : Option Nat := none
  end_date : Option Nat := none
  duration : Option Int := none
  queued_dttm : Option Nat := none
  next_method : Option String := none
  next_kwargs : Option (List (String × String)) := none
  hostname : String := ""
  pid : Option Nat := none
  deriving DecidableEq, Repr

/-- The task-definition fields consulted by the retry and result-push
logic (`retries`, `retry_delay`, `retry_exponential_backoff`,
`max_retry_delay`, `is_teardown`, `multiple_outputs`, `do_xcom_push`).
Delays are microseconds; `max_retry_delay_us = some 0` models a zero
timedelta, which is falsy in Python. -/
structure Task where
  retries : Nat := 0
  retry_delay_us : Nat := 0
  retry_exponential_backoff : Bool := false
  max_retry_delay_us : Option Nat := none
  is_teardown : Bool := false
  multiple_outputs : Bool := false
  do_xcom_push : Bool := true
  deriving DecidableEq, Repr

/-! ## Retry policy (`_is_eligible_to_retry`, `next_retry_datetime`,
`ready_for_retry`, `is_premature`) -/

/-- Embedding of `_is_eligible_to_retry` (taskinstance.py:913-932): a
`RESTARTING` instance is always eligible; without a loaded task the code
guesses from the counters; otherwise eligibility is the truthiness of
`task.retries and try_number <= max_tries`. -/
def _is_eligible_to_retry (ti : TaskInstance) (task : Option Task) : Bool :=
  if ti.state = some TIState.restarting then true
  else
    match task with
    | none => decide (ti.try_number ≤ ti.max_tries)
    | some t => decide (t.retries ≠ 0) && decide (ti.try_number ≤ ti.max_tries)

/-- Modelled from the spec: `MAX_RETRY_DELAY` is imported from the task
SDK (`airflow.sdk.definitions._internal.abstractoperator`, not among the
sources at hand); §4.4 describes it as the maximum representable
duration, i.e. `timedelta.max` in whole seconds. -/
def MAX_RETRY_DELAY : Nat := 86399999999999

/-- The hash key string of the deterministic jitter:
`f"{dag_id}#{task_id}#{logical_date}#{try_number}"` . -/
def tiHashKey (dag_id task_id logical_date : String) (try_number : Nat) : String :=
  dag_id ++ "#" ++ task_id ++ "#" ++ logical_date ++ "#" ++ toString try_number

/-- `min_backoff = max(1, ceil(retry_delay.total_seconds() * 2 ** (try_number - 1)))`
(taskinstance.py:2306-2313), computed exactly over microseconds. -/
def min_backoff (retry_delay_us : Nat) (try_number : Nat) : Nat :=
  max 1 ((retry_delay_us * 2 ^ (try_number - 1) + 999999) / 1000000)

/-- The jittered backoff in whole seconds:
`modded_hash = min_backoff + ti_hash % min_backoff` (taskinstance.py:2316-2324),
with the SHA1-derived integer abstracted as `H`. -/
def jittered_backoff (H : String → Nat) (dag_id task_id logical_date : String)
    (try_number : Nat) (retry_delay_us : Nat) : Nat :=
  let mb := min_backoff retry_delay_us try_number
  mb + H (tiHashKey dag_id task_id logical_date try_number) % mb

/-- The two caps applied to the jittered backoff (taskinstance.py:2330-2333):
first `min(modded_hash, MAX_RETRY_DELAY)`, then
`min(task.max_retry_delay, delay)` when `task.max_retry_delay` is truthy.
Input is seconds, output microseconds. -/
def cap_backoff (max_retry_delay_us : Option Nat) (jittered_s : Nat) : Nat :=
  let delay_us := min jittered_s MAX_RETRY_DELAY * 1000000
  match max_retry_delay_us with
  | some m => if m ≠ 0 then min m delay_us else delay_us
  | none => delay_us

/-- The delay part of `next_retry_datetime` (taskinstance.py:2291-2333):
the task's base `retry_delay` unless exponential backoff is enabled, in
which case the capped deterministic jittered backoff. -/
def next_retry_delay_us (H : String → Nat) (dag_id task_id logical_date : String)
    (try_number : Nat) (task : Task) : Nat :=
  if task.retry_exponential_backoff then
    cap_backoff task.max_retry_delay_us
      (jittered_backoff H dag_id task_id logical_date try_number task.retry_delay_us)
  else task.retry_delay_us

/-- The delay computation applied to a task-instance row. -/
def ti_next_retry_delay_us (H : String → Nat) (ti : TaskInstance) (task : Task) : Nat :=
  next_retry_delay_us H ti.dag_id ti.task_id ti.logical_date ti.try_number task

/-- Embedding of `next_retry_datetime` (taskinstance.py:2291-2334):
`self.end_date + delay`. The source requires `end_date` to be set; an
unset `end_date` is read as epoch 0 here and every theorem that uses the
date hypothesises `end_date = some e`. -/
def next_retry_datetime (H : String → Nat) (ti : TaskInstance) (task : Task) : Nat :=
  ti.end_date.getD 0 + ti_next_retry_delay_us H ti task

/-- Embedding of `ready_for_retry` (taskinstance.py:2336-2338):
`state == UP_FOR_RETRY and next_retry_datetime() < utcnow()`. -/
def ready_for_retry (H : String → Nat) (now : Nat) (ti : TaskInstance) (task : Task) : Bool :=
  decide (ti.state = some TIState.up_for_retry) && decide (next_retry_datetime H ti task < now)

/-- Embedding of the `is_premature` property (taskinstance.py:2134-2138):
`state == UP_FOR_RETRY and not ready_for_retry()`. -/
def is_premature (H : String → Nat) (now : Nat) (ti : TaskInstance) (task : Task) : Bool :=
  decide (ti.state = some TIState.up_for_retry) && ! ready_for_retry H now ti task

/-! ## `_set_state` -/

/-- Whether the freshly assigned state triggers the end-date/duration
stamping in `_set_state`:
`ti.state in State.finished or ti.state == TaskInstanceState.UP_FOR_RETRY`. -/
def finishedOrUpForRetry (s : Option TIState) : Bool :=
  optStateFinished s || s == some TIState.up_for_retry

/-- Embedding of `_set_state` (taskinstance.py:2097-2132): no-op returning
`False` when the state is unchanged; otherwise assigns the state, fills an
unset `start_date` with the current time, and for finished/`up_for_retry`
states fills an unset `end_date` and recomputes `duration`. -/
def _set_state (ti : TaskInstance) (state : Option TIState) (now : Nat) :
    Bool × TaskInstance :=
  if ti.state = state then (false, ti)
  else
    let sd := ti.start_date.getD now
    let ti1 := { ti with state := state, start_date := some sd }
    if finishedOrUpForRetry state then
      let ed := ti1.end_date.getD now
      (true, { ti1 with end_date := some ed, duration := some ((ed : Int) - (sd : Int)) })
    else (true, ti1)

/-! ## State transition guard (`_check_and_change_state_before_execution`) -/

/-- Embedding of `_check_and_change_state_before_execution`
(taskinstance.py:2388-2527), restricted to the persisted row fields.

Arguments standing for database reads: `row` is the locked row the
instance is refreshed from; `non_requeueable_deps_met` and
`requeueable_deps_met` are the outcomes of the two `are_dependencies_met`
evaluations; `tr_start_date` is the first recorded task-reschedule start
date, when one exists.

The returned pair is (return value, row as persisted at the final
commit). On the non-requeueable failure branch the session is committed
without merging the instance, so the persisted row is returned unchanged;
on the requeueable failure branch the instance is merged with its state
reset and a fresh `queued_dttm`; on the runnable branch the state becomes
`running` and `end_date` is cleared. -/
def _check_and_change_state_before_execution
    (row : TaskInstance) (hostname : String) (mark_success : Bool)
    (non_requeueable_deps_met requeueable_deps_met : Bool)
    (tr_start_date : Option Nat) (now : Nat) : Bool × TaskInstance :=
  let ti := { row with hostname := hostname, pid := none }
  if mark_success then
    (true, { ti with state := some TIState.running, end_date := none })
  else if ! non_requeueable_deps_met then
    (false, row)
  else
    let sd1 := if optStrTruthy ti.next_method then ti.start_date else some now
    let sd2 :=
      if ti.state = some TIState.up_for_reschedule then
        match tr_start_date with
        | some d => some d
        | none => sd1
      else sd1
    let ti := { ti with start_date := sd2 }
    if ! requeueable_deps_met then
      (false, { ti with state := none, queued_dttm := some now })
    else
      (true, { ti with state := some TIState.running, end_date := none })

/-! ## Fail-fast propagation (`_stop_remaining_tasks`,
`fetch_handle_failure_context`) -/

/-- Force the instance's state to `FAILED` in the database, as
`TaskInstance.error` (taskinstance.py:1966-1976) does. -/
def TaskInstance.error (ti : TaskInstance) : TaskInstance :=
  { ti with state := some TIState.failed }

/-- The loop body of `_stop_remaining_tasks` (taskinstance.py:408-423)
for one sibling row: skip the failing task's own task id and rows already
in `SUCCESS`/`FAILED`; leave teardown tasks untouched; force running rows
to `FAILED` via `error` and everything else to `SKIPPED` via `set_state`.
`isTeardown` models `task_instance.task.dag.task_dict[ti.task_id].is_teardown`. -/
def stopOne (failing_task_id : String) (isTeardown : String → Bool) (now : Nat)
    (ti : TaskInstance) : TaskInstance :=
  if ti.task_id = failing_task_id ∨ ti.state = some TIState.success
      ∨ ti.state = some TIState.failed then ti
  else if isTeardown ti.task_id then ti
  else if ti.state = some TIState.running then ti.error
  else (_set_state ti (some TIState.skipped) now).2

/-- Embedding of `_stop_remaining_tasks` (taskinstance.py:395-423) over
the sibling rows of the dag run. The source reads only the failing
instance's `task_id` and the dag's task dictionary. -/
def _stop_remaining_tasks (failing_task_id : String) (isTeardown : String → Bool)
    (now : Nat) (tis : List TaskInstance) : List TaskInstance :=
  tis.map (stopOne failing_task_id isTeardown now)

/-- The state-resolution core of `fetch_handle_failure_context`
(taskinstance.py:3056-3120), abstracting logging, metrics, listener and
email plumbing: stamp `end_date`/`duration`, clear the continuation
arguments, then mark the instance `FAILED` when `force_fail` is set or it
is not eligible to retry — stopping the remaining tasks of the run when a
task is loaded and `fail_fast` is set — and `UP_FOR_RETRY` otherwise.
Returns the updated failing row and the sibling rows of the run.

The source calls `ti.is_eligible_to_retry()` after stamping
`end_date`/`duration` and clearing the continuation arguments; the
eligibility check reads only `state`, `try_number` and `max_tries`, none
of which those mutations touch, so it is evaluated here on the incoming
row (the two are definitionally equal). -/
def fetch_handle_failure_context (ti : TaskInstance) (task : Option Task)
    (force_fail fail_fast : Bool) (isTeardown : String → Bool)
    (siblings : List TaskInstance) (now : Nat) :
    TaskInstance × List TaskInstance :=
  let eligible := _is_eligible_to_retry ti task
  let ti1 := { ti with
    end_date := some now
    duration := match ti.start_date with
      | some sd => some ((now : Int) - (sd : Int))
      | none => none
    next_method := none
    next_kwargs := none }
  if force_fail || ! eligible then
    ({ ti1 with state := some TIState.failed },
      if task.isSome && fail_fast then
        _stop_remaining_tasks ti1.task_id isTeardown now siblings
      else siblings)
  else
    ({ ti1 with state := some TIState.up_for_retry }, siblings)

/-! ## Externally-set terminal state during failure handling
(`_run_raw_task`) -/

/-- `clear_next_method_args` (taskinstance.py:744-755): unset the
deferral continuation fields. -/
def clear_next_method_args (ti : TaskInstance) : TaskInstance :=
  { ti with next_method := none, next_kwargs := none }

/-- Outcome of the timeout/exception/termination handler of
`_run_raw_task`: either the externally-set terminal state is kept (with
the row that gets saved) or the failure is handled and re-raised. -/
inductive InterruptResolution where
  | external_state_respected (saved : TaskInstance)
  | failure_handled_and_reraised
  deriving DecidableEq, Repr

/-- Embedding of the `except (AirflowTaskTimeout, AirflowException,
AirflowTaskTerminated)` branch of `_run_raw_task`
(taskinstance.py:302-314): after refreshing from the database with a
lock, a finished state set externally is respected — the continuation
arguments are cleared, the row is saved, and no failure handling runs —
while any other state routes to `handle_failure` and re-raises. -/
def _run_raw_task_on_interrupt (ti_refreshed : TaskInstance) : InterruptResolution :=
  if optStateFinished ti_refreshed.state then
    InterruptResolution.external_state_respected (clear_next_method_args ti_refreshed)
  else InterruptResolution.failure_handled_and_reraised

/-! ## Termination-signal handler (`_execute_task_with_callbacks`) -/

/-- Observable effect of one delivery of the termination signal to the
handler installed by `_execute_task_with_callbacks`: whether the process
is exited immediately (`os._exit` code), whether `task.on_kill()` runs,
and whether `AirflowTaskTerminated` is raised. -/
structure HandlerEffect where
  exit_code : Option Nat
  on_kill_invoked : Bool
  raised_terminated : Bool
  deriving DecidableEq, Repr

/-- Embedding of `signal_handler` (taskinstance.py:2788-2807):
`parent_pid` is the process id recorded at installation, `observed_pid`
the process id at delivery. A forked child (`pid != parent_pid`) calls
`os._exit(1)`; the installing process invokes `task.on_kill()` and raises
`AirflowTaskTerminated`. -/
def signal_handler (parent_pid observed_pid : Nat) : HandlerEffect :=
  if observed_pid ≠ parent_pid then
    { exit_code := some 1, on_kill_invoked := false, raised_terminated := false }
  else
    { exit_code := none, on_kill_invoked := true, raised_terminated := true }

/-- The effect an ignored signal delivery would have: the process keeps
running, no cleanup hook, no terminated outcome. -/
def ignoredSignalEffect : HandlerEffect :=
  { exit_code := none, on_kill_invoked := false, raised_terminated := false }

/-! ## Result push (`_execute_task`, `_record_task_map_for_downstreams`) -/

/-- Result-store keys as they occur in a returned mapping: Python allows
any object, the contract requires strings. -/
inductive XKey where
  | kstr (s : String)
  | kint (n : Int)
  deriving DecidableEq, Repr

/-- Whether a key is a string (`isinstance(key, str)`). -/
def XKey.isString : XKey → Bool
  | XKey.kstr _ => true
  | XKey.kint _ => false

/-- Task return values as far as the push contract inspects them: a
string, a number, a list of some length, or a mapping with its keys. -/
inductive XVal where
  | vstr (s : String)
  | vint (n : Int)
  | vlist (len : Nat)
  | vmap (keys : List XKey)
  deriving DecidableEq, Repr

/-- `isinstance(xcom_value, Mapping)`. -/
def XVal.isMapping : XVal → Bool
  | XVal.vmap _ => true
  | _ => false

/-- Modelled from the spec: `is_mappable_value` comes from the task SDK
(not among the sources at hand); §4.6 stores a map-summary of the
result's length for fan-out, so mappable values are the collections —
lists and mappings. -/
def is_mappable_value : XVal → Bool
  | XVal.vlist _ => true
  | XVal.vmap _ => true
  | _ => false

/-- Modelled from the spec: the length recorded by
`TaskMap.from_task_instance_xcom` (class outside the sources at hand) —
the result's length, i.e. element count of a list or key count of a
mapping. -/
def task_map_length : XVal → Nat
  | XVal.vlist len => len
  | XVal.vmap keys => keys.length
  | _ => 0

/-- The failure modes of the result push. -/
inductive PushError where
  | returnedOutputNotDict
  | dictKeyNotString
  | xcomForMappingNotPushed
  | unmappableXComTypePushed
  | unmappableXComLengthPushed
  deriving DecidableEq, Repr

/-- Embedding of `_record_task_map_for_downstreams`
(taskinstance.py:1023-1061): nothing to validate without mapped
dependants; mapped operators push no task map; a missing value raises
`XComForMappingNotPushed`; a non-mappable value raises
`UnmappableXComTypePushed`; a length above `max_map_length` raises
`UnmappableXComLengthPushed`. -/
def _record_task_map_for_downstreams (has_mapped_dependants task_is_mapped : Bool)
    (value : Option XVal) (max_map_length : Nat) : Except PushError Unit :=
  if ! has_mapped_dependants then Except.ok ()
  else if task_is_mapped then Except.ok ()
  else
    match value with
    | none => Except.error PushError.xcomForMappingNotPushed
    | some v =>
      if ! is_mappable_value v then Except.error PushError.unmappableXComTypePushed
      else if task_map_length v > max_map_length then
        Except.error PushError.unmappableXComLengthPushed
      else Except.ok ()

/-- Embedding of the result-push tail of `_execute_task`
(taskinstance.py:684-715): the value to push is the return value when
`do_xcom_push` else `None`; a present value under `multiple_outputs` must
be a mapping with string keys; afterwards
`_record_task_map_for_downstreams` always runs on the (possibly absent)
value. `task_orig_is_mapped` is whether the original task object is a
`MappedOperator`. -/
def _execute_task_xcom_push (do_xcom_push multiple_outputs : Bool)
    (result : Option XVal) (has_mapped_dependants task_orig_is_mapped : Bool)
    (max_map_length : Nat) : Except PushError Unit :=
  let xcom_value := if do_xcom_push then result else none
  match xcom_value with
  | some v =>
    if multiple_outputs then
      match v with
      | XVal.vmap keys =>
        if keys.any (fun k => ! k.isString) then Except.error PushError.dictKeyNotString
        else _record_task_map_for_downstreams has_mapped_dependants task_orig_is_mapped
          (some v) max_map_length
      | _ => Except.error PushError.returnedOutputNotDict
    else
      _record_task_map_for_downstreams has_mapped_dependants task_orig_is_mapped
        (some v) max_map_length
  | none =>
    _record_task_map_for_downstreams has_mapped_dependants task_orig_is_mapped
      none max_map_length

/-! ## Mapped-index resolution (`get_relevant_upstream_map_indexes`) -/

/-- A task group in an operator's parent chain, with whether it is a
mapped task group. -/
structure TGroup where
  group_id : String
  is_mapped : Bool
  deriving DecidableEq, Repr

/-- An operator as seen by the mapped-index resolution: its dag, whether
it is itself a `MappedOperator`, and its task-group parent chain from the
innermost group outwards. -/
structure OpNode where
  dag_id : Option String := some "dag"
  is_mapped : Bool := false
  group_chain : List TGroup := []
  deriving DecidableEq, Repr

/-- `iter_mapped_task_groups`: the ids of the mapped task groups
containing the operator, innermost first. -/
def OpNode.mappedGroupIds (op : OpNode) : List String :=
  (op.group_chain.filter (fun g => g.is_mapped)).map (fun g => g.group_id)

/-- Embedding of `_find_common_ancestor_mapped_group`
(taskinstance.py:3694-3700): `None` unless both operators are in the same
dag; otherwise the innermost mapped task group of `node2` whose id also
contains `node1`. -/
def _find_common_ancestor_mapped_group (node1 node2 : OpNode) : Option String :=
  match node1.dag_id, node2.dag_id with
  | some d1, some d2 =>
    if d1 ≠ d2 then none
    else node2.mappedGroupIds.find? (fun gid => node1.mappedGroupIds.contains gid)
  | _, _ => none

/-- The parent-chain walk of `_is_further_mapped_inside`: stop at the
container group, answer true on any mapped group strictly inside it. -/
def furtherChain (container_id : String) : List TGroup → Bool
  | [] => false
  | g :: rest =>
    if g.group_id = container_id then false
    else g.is_mapped || furtherChain container_id rest

/-- Embedding of `_is_further_mapped_inside` (taskinstance.py:3703-3715):
a `MappedOperator` is further mapped; otherwise walk the task-group chain
up to the container looking for a mapped group. -/
def _is_further_mapped_inside (op : OpNode) (container_id : String) : Bool :=
  op.is_mapped || furtherChain container_id op.group_chain

/-- Return value of `get_relevant_upstream_map_indexes`: the whole-value
sentinel (`None`), a single map index, or a `range(lo, hi)`. -/
inductive RelevantIndexes where
  | whole
  | single (i : Int)
  | irange (lo hi : Int)
  deriving DecidableEq, Repr

/-- Embedding of `get_relevant_upstream_map_indexes`
(taskinstance.py:3479-3566). `mapped_ti_count gid` stands for
`BaseOperator.get_mapped_ti_count(common_ancestor, run_id)`. Python `//`
on ints is floor division (`Int.fdiv`). -/
def get_relevant_upstream_map_indexes (self_task upstream : OpNode)
    (map_index : Int) (ti_count : Option Nat) (mapped_ti_count : String → Nat) :
    RelevantIndexes :=
  match ti_count with
  | none => RelevantIndexes.whole
  | some n =>
    if n = 0 then RelevantIndexes.whole
    else
      match _find_common_ancestor_mapped_group self_task upstream with
      | none => RelevantIndexes.whole
      | some gid =>
        let ancestor_ti_count : Int := (mapped_ti_count gid : Int)
        let ancestor_map_index : Int := Int.fdiv (map_index * ancestor_ti_count) (n : Int)
        if ! _is_further_mapped_inside upstream gid then
          RelevantIndexes.single ancestor_map_index
        else
          let further_count : Int := Int.fdiv (n : Int) ancestor_ti_count
          RelevantIndexes.irange (ancestor_map_index * further_count)
            (ancestor_map_index * further_count + further_count)

/-! ## Concrete fixtures used by the theorems -/

/-- A mapped task group used by the mapped-index examples. -/
def exGroup : TGroup := { group_id := "tg1", is_mapped := true }

/-- A downstream task inside the mapped group `tg1`. -/
def exDownstream : OpNode :=
  { dag_id := some "d", is_mapped := false, group_chain := [exGroup] }

/-- An upstream task inside `tg1` that is not further expanded there. -/
def exUpstreamSingle : OpNode :=
  { dag_id := some "d", is_mapped := false, group_chain := [exGroup] }

/-- An upstream task inside `tg1` that is itself mapped (further
expanded). -/
def exUpstreamFurther : OpNode :=
  { dag_id := some "d", is_mapped := true, group_chain := [exGroup] }

/-- A failing mapped task instance (task `t`, map index 0). -/
def exFailingTI : TaskInstance :=
  { task_id := "t", map_index := 0, state := some TIState.running }

/-- A running sibling instance of the same task `t` at map index 1. -/
def exSameTaskSibling : TaskInstance :=
  { task_id := "t", map_index := 1, state := some TIState.running }

/-- A failing (non-mapped) task instance with task id `a`. -/
def exFailA : TaskInstance := { task_id := "a", state := some TIState.running }

/-- A queued non-teardown sibling with task id `b`. -/
def exSibB : TaskInstance := { task_id := "b", state := some TIState.queued }

/-- A deferred teardown sibling with task id `c`. -/
def exSibTear : TaskInstance := { task_id := "c", state := some TIState.deferred }

/-! ## Theorems -/

/-- C4: `is_eligible_to_retry` returns true if and only if the instance
is in `restarting` state, or the task declares a nonzero retry count and
`try_number <= max_tries`; in particular `max_tries=3, try_number=4` is
not eligible, `try_number=3` is eligible, and a `restarting` instance is
eligible regardless of the counters. -/
theorem is_eligible_to_retry_spec (ti : TaskInstance) (t : Task) :
    (_is_eligible_to_retry ti (some t) = true ↔
      ti.state = some TIState.restarting
        ∨ (t.retries ≠ 0 ∧ ti.try_number ≤ ti.max_tries))
    ∧ _is_eligible_to_retry
        { state := some TIState.running, try_number := 4, max_tries := 3 }
        (some { retries := 3 }) = false
    ∧ _is_eligible_to_retry
        { state := some TIState.running, try_number := 3, max_tries := 3 }
        (some { retries := 3 }) = true
    ∧ _is_eligible_to_retry
        { state := some TIState.restarting, try_number := 100, max_tries := 3 }
        (some { retries := 0 }) = true := by
  refine ⟨?_, by decide, by decide, by decide⟩
  by_cases h : ti.state = some TIState.restarting
  · simp [_is_eligible_to_retry, h]
  · simp [_is_eligible_to_retry, h]

/-- C5: the next retry time is `end_date + delay`; the readiness check
reports the instance ready if and only if its state is `up_for_retry` and
wall-clock time has passed the next retry time; while the next retry time
is still in the future the instance is premature and not ready, and once
wall-clock time passes it, it is ready. -/
theorem ready_for_retry_spec (H : String → Nat) (now e : Nat)
    (ti : TaskInstance) (t : Task) :
    (ti.end_date = some e →
      next_retry_datetime H ti t = e + ti_next_retry_delay_us H ti t)
    ∧ (ready_for_retry H now ti t = true ↔
        (ti.state = some TIState.up_for_retry ∧ next_retry_datetime H ti t < now))
    ∧ (ti.state = some TIState.up_for_retry → now ≤ next_retry_datetime H ti t →
        is_premature H now ti t = true ∧ ready_for_retry H now ti t = false)
    ∧ (ti.state = some TIState.up_for_retry → next_retry_datetime H ti t < now →
        ready_for_retry H now ti t = true) := by
  refine ⟨?_, ?_, ?_, ?_⟩
  · intro h
    simp [next_retry_datetime, h]
  · simp [ready_for_retry]
  · intro hs hle
    constructor
    · simp [is_premature, ready_for_retry, hs, Nat.not_lt.mpr hle]
    · simp [ready_for_retry, Nat.not_lt.mpr hle]
  · intro hs hlt
    simp [ready_for_retry, hs, hlt]

/-- C5 witness: an `up_for_retry` instance with `end_date = 100` and a
50-microsecond base delay is premature at time 120 and ready at 200. -/
theorem ready_for_retry_spec_witness :
    ({ state := some TIState.up_for_retry, end_date := some 100 } : TaskInstance).state
        = some TIState.up_for_retry
    ∧ (is_premature (fun _ => 0) 120
          { state := some TIState.up_for_retry, end_date := some 100 }
          { retry_delay_us := 50 } = true
        ∧ ready_for_retry (fun _ => 0) 120
            { state := some TIState.up_for_retry, end_date := some 100 }
            { retry_delay_us := 50 } = false)
    ∧ ready_for_retry (fun _ => 0) 200
        { state := some TIState.up_for_retry, end_date := some 100 }
        { retry_delay_us := 50 } = true :=
  ⟨rfl,
    (ready_for_retry_spec (fun _ => 0) 120 100
      { state := some TIState.up_for_retry, end_date := some 100 }
      { retry_delay_us := 50 }).2.2.1 rfl (by decide),
    (ready_for_retry_spec (fun _ => 0) 200 100
      { state := some TIState.up_for_retry, end_date := some 100 }
      { retry_delay_us := 50 }).2.2.2 rfl (by decide)⟩

/-- C8: when the refreshed persisted state observed while handling a
timeout/exception/termination outcome is already a finished state set
externally, that state is respected: the continuation arguments are
cleared, the row is saved with the state unchanged, and no failure
handling occurs; any non-finished state routes to failure handling. -/
theorem run_raw_task_external_terminal_spec (ti : TaskInstance) :
    (optStateFinished ti.state = true →
      _run_raw_task_on_interrupt ti
          = InterruptResolution.external_state_respected
              { ti with next_method := none, next_kwargs := none }
        ∧ ({ ti with next_method := none, next_kwargs := none } : TaskInstance).state
            = ti.state)
    ∧ (optStateFinished ti.state = false →
        _run_raw_task_on_interrupt ti
          = InterruptResolution.failure_handled_and_reraised) := by
  constructor
  · intro h
    exact ⟨by simp [_run_raw_task_on_interrupt, clear_next_method_args, h], rfl⟩
  · intro h
    simp [_run_raw_task_on_interrupt, h]

/-- C8 witness: an instance externally marked `success` mid-failure
keeps that state and only loses its continuation arguments. -/
theorem run_raw_task_external_terminal_spec_witness :
    optStateFinished (some TIState.success) = true
    ∧ _run_raw_task_on_interrupt
          { state := some TIState.success, next_method := some "execute" }
        = InterruptResolution.external_state_respected
            { state := some TIState.success, next_method := none, next_kwargs := none } :=
  ⟨by decide,
    ((run_raw_task_external_terminal_spec
      { state := some TIState.success, next_method := some "execute" }).1 (by decide)).1⟩

/-- C9 counterexample: on a delivery in a forked child (observed pid 2,
recorded pid 1) the handler is not a no-op — it exits the child process
with code 1, so the signal is not ignored as the claim states. -/
theorem signal_handler_forked_child_counterexample :
    (signal_handler 1 2).exit_code = some 1
    ∧ signal_handler 1 2 ≠ ignoredSignalEffect := by decide

/-- C9 amended: the handler acts only in the process it was installed in:
on a pid mismatch (forked child) it exits that process immediately with
code 1 — invoking neither the task's cleanup hook nor the terminated
outcome — and on a pid match it invokes the cleanup hook and raises the
terminated outcome. -/
theorem signal_handler_process_identity (parent pid : Nat) :
    (pid ≠ parent →
      signal_handler parent pid
        = { exit_code := some 1, on_kill_invoked := false, raised_terminated := false })
    ∧ (pid = parent →
      signal_handler parent pid
        = { exit_code := none, on_kill_invoked := true, raised_terminated := true }) := by
  constructor
  · intro h
    simp [signal_handler, h]
  · intro h
    simp [signal_handler, h]

/-- C9 witness: concrete deliveries in a forked child and in the
installing process. -/
theorem signal_handler_process_identity_witness :
    ((2 : Nat) ≠ 1
      ∧ signal_handler 1 2
          = { exit_code := some 1, on_kill_invoked := false, raised_terminated := false })
    ∧ signal_handler 1 1
        = { exit_code := none, on_kill_invoked := true, raised_terminated := true } :=
  ⟨⟨by decide, (signal_handler_process_identity 1 2).1 (by decide)⟩,
    (signal_handler_process_identity 1 1).2 rfl⟩

/-- C10: `set_state` returns `False` leaving the row unchanged when the
instance is already in the target state (hence a second consecutive call
with the same state is a no-op); otherwise it returns `True`, assigns the
state, fills an unset `start_date` with the current time, and — exactly
when the target state is finished or `up_for_retry` — fills an unset
`end_date` and sets the duration. -/
theorem set_state_spec (ti : TaskInstance) (s : Option TIState) (now now2 : Nat) :
    (ti.state = s → _set_state ti s now = (false, ti))
    ∧ (ti.state ≠ s →
        (_set_state ti s now).1 = true
        ∧ (_set_state ti s now).2.state = s
        ∧ (_set_state ti s now).2.start_date = some (ti.start_date.getD now)
        ∧ (finishedOrUpForRetry s = true →
            (_set_state ti s now).2.end_date = some (ti.end_date.getD now)
            ∧ (_set_state ti s now).2.duration
                = some ((ti.end_date.getD now : Int) - (ti.start_date.getD now : Int)))
        ∧ (finishedOrUpForRetry s = false →
            (_set_state ti s now).2.end_date = ti.end_date
            ∧ (_set_state ti s now).2.duration = ti.duration))
    ∧ _set_state (_set_state ti s now).2 s now2 = (false, (_set_state ti s now).2) := by
  have hst : (_set_state ti s now).2.state = s ∨ _set_state ti s now = (false, ti) := by
    by_cases h : ti.state = s
    · right; simp [_set_state, h]
    · left; cases hf : finishedOrUpForRetry s <;> simp [_set_state, h, hf]
  refine ⟨?_, ?_, ?_⟩
  · intro h
    simp [_set_state, h]
  · intro h
    cases hf : finishedOrUpForRetry s <;>
      simp [_set_state, h, hf]
  · rcases hst with h | h
    · generalize hgen : (_set_state ti s now).2 = r at h ⊢
      simp [_set_state, h]
    · rw [h]
      have h2 : ti.state = s := by
        by_cases hc : ti.state = s
        · exact hc
        · exfalso
          cases hf : finishedOrUpForRetry s <;> simp [_set_state, hc, hf] at h
      simp [_set_state, h2]

/-- C10 witness: a fresh instance moved to `success` gets both timestamps
and a duration; repeating the call is a no-op. -/
theorem set_state_spec_witness :
    (({} : TaskInstance).state ≠ some TIState.success
      ∧ (_set_state {} (some TIState.success) 50).1 = true
      ∧ (_set_state {} (some TIState.success) 50).2.state = some TIState.success)
    ∧ _set_state (_set_state {} (some TIState.success) 50).2 (some TIState.success) 60
        = (false, (_set_state {} (some TIState.success) 50).2) :=
  ⟨⟨by decide,
    ((set_state_spec {} (some TIState.success) 50 60).2.1 (by decide)).1,
    ((set_state_spec {} (some TIState.success) 50 60).2.1 (by decide)).2.1⟩,
    (set_state_spec {} (some TIState.success) 50 60).2.2⟩

/-- C1: without `mark_success`, a failing non-requeueable dependency
makes the call return `False` with the persisted row unchanged (read-only
commit), and when the non-requeueable dependencies pass but a requeueable
one fails, the call returns `False`, the persisted state is reset to none
with a fresh `queued_dttm`, and `try_number` is untouched. -/
theorem check_and_change_state_dep_failure (row : TaskInstance) (host : String)
    (rqm : Bool) (trsd : Option Nat) (now : Nat) :
    _check_and_change_state_before_execution row host false false rqm trsd now
        = (false, row)
    ∧ (_check_and_change_state_before_execution row host false true false trsd now).1
        = false
    ∧ (_check_and_change_state_before_execution row host false true false trsd now).2.state
        = none
    ∧ (_check_and_change_state_before_execution row host false true false trsd now).2.queued_dttm
        = some now
    ∧ (_check_and_change_state_before_execution row host false true false trsd now).2.try_number
        = row.try_number :=
  ⟨rfl, rfl, rfl, rfl, rfl⟩

/-- C2: with exponential backoff, the delay is the jittered value
`min_backoff + h % min_backoff` with
`min_backoff = max(1, ceil(d_seconds * 2^(n-1)))` and `h` the hash of
`dag_id#task_id#logical_date#try_number`; the jittered delay is at least
one second; it is capped first at the maximum representable retry delay
and then at the task's configured maximum when that is set (nonzero); and
the computation is deterministic: two instances agreeing on `dag_id`,
`task_id`, `logical_date` and `try_number` (and base delay) get the same
delay, hence with equal `end_date` the same next retry time. -/
theorem next_retry_backoff_spec (H : String → Nat) (ti1 ti2 : TaskInstance)
    (t : Task) (hexp : t.retry_exponential_backoff = true)
    (hdag : ti1.dag_id = ti2.dag_id) (htask : ti1.task_id = ti2.task_id)
    (hdate : ti1.logical_date = ti2.logical_date)
    (htry : ti1.try_number = ti2.try_number) :
    ti_next_retry_delay_us H ti1 t
        = cap_backoff t.max_retry_delay_us
            (jittered_backoff H ti1.dag_id ti1.task_id ti1.logical_date
              ti1.try_number t.retry_delay_us)
    ∧ jittered_backoff H ti1.dag_id ti1.task_id ti1.logical_date ti1.try_number
          t.retry_delay_us
        = min_backoff t.retry_delay_us ti1.try_number
          + H (tiHashKey ti1.dag_id ti1.task_id ti1.logical_date ti1.try_number)
              % min_backoff t.retry_delay_us ti1.try_number
    ∧ min_backoff t.retry_delay_us ti1.try_number
        = max 1 ((t.retry_delay_us * 2 ^ (ti1.try_number - 1) + 999999) / 1000000)
    ∧ 1 ≤ jittered_backoff H ti1.dag_id ti1.task_id ti1.logical_date ti1.try_number
          t.retry_delay_us
    ∧ (∀ j : Nat, cap_backoff t.max_retry_delay_us j
        = match t.max_retry_delay_us with
          | some m =>
            if m ≠ 0 then min m (min j MAX_RETRY_DELAY * 1000000)
            else min j MAX_RETRY_DELAY * 1000000
          | none => min j MAX_RETRY_DELAY * 1000000)
    ∧ ti_next_retry_delay_us H ti1 t = ti_next_retry_delay_us H ti2 t
    ∧ (ti1.end_date = ti2.end_date →
        next_retry_datetime H ti1 t = next_retry_datetime H ti2 t) := by
  have hdet : ti_next_retry_delay_us H ti1 t = ti_next_retry_delay_us H ti2 t := by
    simp [ti_next_retry_delay_us, hdag, htask, hdate, htry]
  refine ⟨?_, rfl, rfl, ?_, ?_, hdet, ?_⟩
  · simp [ti_next_retry_delay_us, next_retry_delay_us, hexp]
  · exact le_trans (le_max_left _ _) (Nat.le_add_right _ _)
  · intro j
    cases t.max_retry_delay_us <;> rfl
  · intro h
    simp [next_retry_datetime, h, hdet]

/-- C2 witness: a concrete backoff-enabled task with a 3-second base
delay at attempt 2. -/
theorem next_retry_backoff_spec_witness :
    ({ retry_exponential_backoff := true, retry_delay_us := 3000000 } : Task).retry_exponential_backoff
        = true
    ∧ 1 ≤ jittered_backoff (fun _ => 7) "d" "t" "ld" 2 3000000 :=
  ⟨rfl,
    (next_retry_backoff_spec (fun _ => 7)
      { dag_id := "d", task_id := "t", logical_date := "ld", try_number := 2 }
      { dag_id := "d", task_id := "t", logical_date := "ld", try_number := 2 }
      { retry_exponential_backoff := true, retry_delay_us := 3000000 }
      rfl rfl rfl rfl rfl).2.2.2.1⟩

/-- C3: mapped-index resolution returns the whole-value sentinel when the
two tasks have no common mapped task-group ancestor; a single scaled
index `map_index * ancestor_ti_count // ti_count` when the upstream is
not further expanded inside the common ancestor; and the contiguous range
of width `ti_count // ancestor_ti_count` starting at
`ancestor_map_index * further_count` otherwise. In particular, with
`ti_count=6`, `ancestor_ti_count=2` and `map_index=4` the scaled index is
1, and with further expansion (`further_count=3`) the result is the range
`[3,6)`. -/
theorem relevant_upstream_map_indexes_spec (self up : OpNode) (i : Int)
    (n : Nat) (cnt : String → Nat) (gid : String) (hn : n ≠ 0) :
    (_find_common_ancestor_mapped_group self up = none →
      get_relevant_upstream_map_indexes self up i (some n) cnt
        = RelevantIndexes.whole)
    ∧ (_find_common_ancestor_mapped_group self up = some gid →
        _is_further_mapped_inside up gid = false →
        get_relevant_upstream_map_indexes self up i (some n) cnt
          = RelevantIndexes.single (Int.fdiv (i * (cnt gid : Int)) (n : Int)))
    ∧ (_find_common_ancestor_mapped_group self up = some gid →
        _is_further_mapped_inside up gid = true →
        get_relevant_upstream_map_indexes self up i (some n) cnt
          = RelevantIndexes.irange
              (Int.fdiv (i * (cnt gid : Int)) (n : Int)
                * Int.fdiv (n : Int) (cnt gid : Int))
              (Int.fdiv (i * (cnt gid : Int)) (n : Int)
                  * Int.fdiv (n : Int) (cnt gid : Int)
                + Int.fdiv (n : Int) (cnt gid : Int)))
    ∧ get_relevant_upstream_map_indexes exDownstream exUpstreamSingle 4 (some 6)
        (fun _ => 2) = RelevantIndexes.single 1
    ∧ get_relevant_upstream_map_indexes exDownstream exUpstreamFurther 4 (some 6)
        (fun _ => 2) = RelevantIndexes.irange 3 6 := by
  refine ⟨?_, ?_, ?_, by decide, by decide⟩
  · intro h
    simp [get_relevant_upstream_map_indexes, hn, h]
  · intro h hf
    simp [get_relevant_upstream_map_indexes, hn, h, hf]
  · intro h hf
    simp [get_relevant_upstream_map_indexes, hn, h, hf]

/-- C3 witness: the concrete scaled-index and range cases. -/
theorem relevant_upstream_map_indexes_spec_witness :
    (6 : Nat) ≠ 0
    ∧ get_relevant_upstream_map_indexes exDownstream exUpstreamSingle 4 (some 6)
        (fun _ => 2) = RelevantIndexes.single 1
    ∧ get_relevant_upstream_map_indexes exDownstream exUpstreamFurther 4 (some 6)
        (fun _ => 2) = RelevantIndexes.irange 3 6 :=
  ⟨by decide,
    (relevant_upstream_map_indexes_spec exDownstream exUpstreamSingle 4 6
      (fun _ => 2) "tg1" (by decide)).2.2.2.1,
    (relevant_upstream_map_indexes_spec exDownstream exUpstreamFurther 4 6
      (fun _ => 2) "tg1" (by decide)).2.2.2.2⟩

/-- C6 counterexample: a running, non-terminal, non-teardown sibling
instance of the same run that shares the failing instance's `task_id`
(another map index of the same task) is skipped by the `task_id` check
and left running — not forced to `failed` as the claim states for every
such sibling. -/
theorem fail_fast_same_task_sibling_counterexample :
    exSameTaskSibling ≠ exFailingTI
    ∧ optStateFinished exSameTaskSibling.state = false
    ∧ (fetch_handle_failure_context exFailingTI (some { retries := 0 }) true true
        (fun _ => false) [exSameTaskSibling] 0).2 = [exSameTaskSibling]
    ∧ exSameTaskSibling.state ≠ some TIState.failed := by
  decide

/-- C6 amended: when a failure is handled with `fail_fast` and the
instance is being marked permanently failed, the siblings of the run are
put through `_stop_remaining_tasks`; every sibling whose `task_id`
differs from the failing instance's, that is not in a terminal state and
not marked teardown, is forced to `failed` (if running) or `skipped`
(otherwise), and teardown-marked siblings are left untouched. -/
theorem fail_fast_stops_siblings (ti : TaskInstance) (t : Task)
    (force_fail : Bool) (isTd : String → Bool) (sibs : List TaskInstance)
    (now : Nat)
    (hperm : force_fail = true ∨ _is_eligible_to_retry ti (some t) = false) :
    (fetch_handle_failure_context ti (some t) force_fail true isTd sibs now).1.state
        = some TIState.failed
    ∧ (fetch_handle_failure_context ti (some t) force_fail true isTd sibs now).2
        = _stop_remaining_tasks ti.task_id isTd now sibs
    ∧ (∀ s : TaskInstance, isTd s.task_id = false → s.task_id ≠ ti.task_id →
        optStateFinished s.state = false →
        (stopOne ti.task_id isTd now s).state
          = some (if s.state = some TIState.running then TIState.failed
              else TIState.skipped))
    ∧ (∀ s : TaskInstance, isTd s.task_id = true →
        stopOne ti.task_id isTd now s = s) := by
  have hcond : (force_fail || ! _is_eligible_to_retry ti (some t)) = true := by
    rcases hperm with h | h <;> simp [h]
  refine ⟨?_, ?_, ?_, ?_⟩
  · simp [fetch_handle_failure_context, hcond]
  · simp [fetch_handle_failure_context, hcond, _stop_remaining_tasks]
  · intro s h1 h2 h3
    have hnsucc : s.state ≠ some TIState.success := by
      intro hc; rw [hc] at h3; simp [optStateFinished, State.finished] at h3
    have hnfail : s.state ≠ some TIState.failed := by
      intro hc; rw [hc] at h3; simp [optStateFinished, State.finished] at h3
    have hnskip : s.state ≠ some TIState.skipped := by
      intro hc; rw [hc] at h3; simp [optStateFinished, State.finished] at h3
    have hguard : ¬ (s.task_id = ti.task_id ∨ s.state = some TIState.success
        ∨ s.state = some TIState.failed) := by
      push_neg
      exact ⟨h2, hnsucc, hnfail⟩
    by_cases hr : s.state = some TIState.running
    · simp [stopOne, hguard, h1, h2, hr, TaskInstance.error]
    · have hfin : finishedOrUpForRetry (some TIState.skipped) = true := by decide
      simp [stopOne, hguard, h1, h2, hr, _set_state, hnskip, hnsucc, hnfail, hfin]
  · intro s h
    by_cases hg : (s.task_id = ti.task_id ∨ s.state = some TIState.success
        ∨ s.state = some TIState.failed)
    · simp [stopOne, hg]
    · simp [stopOne, hg, h]

/-- C6 witness: with `fail_fast` and `force_fail`, a queued non-teardown
sibling of a different task becomes skipped and a teardown sibling is
untouched. -/
theorem fail_fast_stops_siblings_witness :
    (true = true ∨ _is_eligible_to_retry exFailA (some {}) = false)
    ∧ (fetch_handle_failure_context exFailA (some {}) true true
          (fun tid => tid == "c") [exSibB, exSibTear] 0).1.state
        = some TIState.failed
    ∧ (stopOne exFailA.task_id (fun tid => tid == "c") 0 exSibB).state
        = some TIState.skipped
    ∧ stopOne exFailA.task_id (fun tid => tid == "c") 0 exSibTear = exSibTear :=
  ⟨Or.inl rfl,
    (fail_fast_stops_siblings exFailA {} true (fun tid => tid == "c")
      [exSibB, exSibTear] 0 (Or.inl rfl)).1,
    (fail_fast_stops_siblings exFailA {} true (fun tid => tid == "c")
      [exSibB, exSibTear] 0 (Or.inl rfl)).2.2.1 exSibB (by decide) (by decide)
      (by decide),
    (fail_fast_stops_siblings exFailA {} true (fun tid => tid == "c")
      [exSibB, exSibTear] 0 (Or.inl rfl)).2.2.2 exSibTear (by decide)⟩

/-- C7 counterexample: a task that is itself a mapped operator, has
mapped dependants and pushes no value does not fail — the task-map
validation exempts mapped operators — contradicting the claim that a
null return value always fails with a not-pushed error when mapped
dependants exist. -/
theorem mapped_task_exempt_counterexample :
    _execute_task_xcom_push true false none true true 1024 = Except.ok ()
    ∧ _record_task_map_for_downstreams true true none 1024
        ≠ Except.error PushError.xcomForMappingNotPushed :=
  ⟨rfl, fun h => nomatch h⟩

/-- C7 amended: pushing a non-mapping value under multiple named outputs
fails with a type-mismatch error; a mapping with a non-string key fails
with a key-type error; and when the task has mapped dependants and is not
itself a mapped operator, a null value fails with a not-pushed error, a
non-mappable value with an unmappable-type error, and an over-long value
with a length-exceeded error. -/
theorem xcom_push_contract (deps m : Bool) (maxlen : Nat) :
    (∀ v : XVal, v.isMapping = false →
      _execute_task_xcom_push true true (some v) deps m maxlen
        = Except.error PushError.returnedOutputNotDict)
    ∧ (∀ keys : List XKey, keys.any (fun k => ! k.isString) = true →
      _execute_task_xcom_push true true (some (XVal.vmap keys)) deps m maxlen
        = Except.error PushError.dictKeyNotString)
    ∧ (∀ mult : Bool,
      _execute_task_xcom_push true mult none true false maxlen
        = Except.error PushError.xcomForMappingNotPushed)
    ∧ (∀ v : XVal, is_mappable_value v = false →
      _execute_task_xcom_push true false (some v) true false maxlen
        = Except.error PushError.unmappableXComTypePushed)
    ∧ (∀ v : XVal, is_mappable_value v = true → task_map_length v > maxlen →
      _execute_task_xcom_push true false (some v) true false maxlen
        = Except.error PushError.unmappableXComLengthPushed) := by
  refine ⟨?_, ?_, ?_, ?_, ?_⟩
  · intro v h
    cases v <;> simp_all [_execute_task_xcom_push, XVal.isMapping]
  · intro keys h
    simp [_execute_task_xcom_push, h]
  · intro mult
    simp [_execute_task_xcom_push, _record_task_map_for_downstreams]
  · intro v h
    cases v <;>
      simp_all [_execute_task_xcom_push, _record_task_map_for_downstreams,
        is_mappable_value]
  · intro v h1 h2
    cases v <;>
      simp_all [_execute_task_xcom_push, _record_task_map_for_downstreams,
        is_mappable_value, task_map_length]

/-- C7 witness: a non-mapping value under multiple outputs and an
over-long list for a fan-out consumer. -/
theorem xcom_push_contract_witness :
    (XVal.vint 3).isMapping = false
    ∧ _execute_task_xcom_push true true (some (XVal.vint 3)) true false 1024
        = Except.error PushError.returnedOutputNotDict
    ∧ _execute_task_xcom_push true false (some (XVal.vlist 5)) true false 4
        = Except.error PushError.unmappableXComLengthPushed :=
  ⟨rfl,
    (xcom_push_contract true false 1024).1 (XVal.vint 3) rfl,
    (xcom_push_contract true false 4).2.2.2.2 (XVal.vlist 5) rfl (by decide)⟩

end Airflow
